import Mathlib

/-!
# HotelDeskPro — verification of the booking / invoicing slice

Shallow embedding of `src/app.py` (a Flask + SQLite front-desk application).
The four SQLite tables become lists of records; `AUTOINCREMENT` ids are
modelled by explicit `next…Id` counters starting at 1; SQLite `REAL` values
(room rates and booking totals) are idealised as exact rationals `ℚ`;
calendar dates are proleptic-Gregorian triples, with day differences
computed exactly as CPython's `datetime` does (via `date.toordinal`).

Each Flask route body becomes a pure function from the store to the store.
A request that raises an uncaught Python/SQLite exception before
`conn.commit()` (duplicate room number hitting the `UNIQUE` constraint,
`fetchone()[0]` on an empty result) leaves the store unchanged — the
transaction is never committed — and is modelled by an `Except` error.
The `login_required` decorator becomes an explicit guard in `handle`.
-/

namespace HotelDesk

/-- A calendar date as parsed by `datetime.strptime(s, "%Y-%m-%d")`
(proleptic Gregorian, year ≥ 1). -/
structure Date where
  year : Nat
  month : Nat
  day : Nat
deriving Repr, DecidableEq

/-- Gregorian leap-year test, as in CPython's `datetime` module. -/
def isLeap (y : Nat) : Bool :=
  y % 4 == 0 && (y % 100 != 0 || y % 400 == 0)

/-- Days in the months strictly before month `m`, in a non-leap year
(CPython `_DAYS_BEFORE_MONTH`). -/
def daysBeforeMonth : Nat → Nat
  | 1 => 0
  | 2 => 31
  | 3 => 59
  | 4 => 90
  | 5 => 120
  | 6 => 151
  | 7 => 181
  | 8 => 212
  | 9 => 243
  | 10 => 273
  | 11 => 304
  | 12 => 334
  | _ => 0

/-- CPython `datetime.date.toordinal`: day number in the proleptic Gregorian
calendar, with 0001-01-01 as day 1. -/
def toordinal (d : Date) : Nat :=
  let y := d.year - 1
  365 * y + y / 4 - y / 100 + y / 400
    + daysBeforeMonth d.month
    + (if d.month > 2 && isLeap d.year then 1 else 0)
    + d.day

/-- `(datetime.strptime(checkout, "%Y-%m-%d") - datetime.strptime(checkin, "%Y-%m-%d")).days`
(app.py line 208).  Both datetimes are at midnight, so the timedelta is an
exact whole number of days (possibly zero or negative). -/
def dateDiffDays (checkin checkout : Date) : Int :=
  (toordinal checkout : Int) - (toordinal checkin : Int)

/-- Two-digit zero padding, as in the `%m`/`%d` fields of an HTML date value. -/
def pad2 (n : Nat) : String :=
  if n < 10 then "0" ++ toString n else toString n

/-- The `"YYYY-MM-DD"` string a form date field submits; this raw string is
what the `bookings` table stores in its `checkin`/`checkout` TEXT columns. -/
def dateStr (d : Date) : String :=
  toString d.year ++ "-" ++ pad2 d.month ++ "-" ++ pad2 d.day

/-- Python `str(x)` for a SQLite REAL value, as interpolated into the invoice
text (app.py line 253).  A numeric string stored into a REAL column acquires
REAL affinity, so an integral rate like `"100"` comes back as the float
`100.0` and prints as `"100.0"`.  The model is exact on integral values
(`str(200.0) = "200.0"`), which is all the claims exercise; the non-integral
branch is a placeholder (Python would print a decimal expansion). -/
def reprReal (q : ℚ) : String :=
  if q.den = 1 then toString q.num ++ ".0"
  else toString q.num ++ "/" ++ toString q.den

/-- Round n/d (d ≠ 0) to the nearest integer, ties to even — the rounding
step of IEEE-754 round-to-nearest. -/
def roundHalfEvenNat (n d : Nat) : Nat :=
  if 2 * (n % d) < d then n / d
  else if d < 2 * (n % d) then n / d + 1
  else if (n / d) % 2 = 0 then n / d else n / d + 1

/-- ⌊log₂ m⌋ by structural recursion on a fuel (any fuel ≥ log₂ m works;
callers pass m itself). -/
def log2fuel : Nat → Nat → Nat
  | 0, _ => 0
  | fuel + 1, m => if 2 ≤ m then log2fuel fuel (m / 2) + 1 else 0

/-- ⌈log₂ m⌉ for m ≥ 1 (smallest k with m ≤ 2^k), same fuel pattern. -/
def clog2fuel : Nat → Nat → Nat
  | 0, _ => 0
  | fuel + 1, m => if 2 ≤ m then clog2fuel fuel ((m + 1) / 2) + 1 else 0

/-- ⌊log₂ (n/d)⌋ for positive n, d: for n/d ≥ 1 it is ⌊log₂ ⌊n/d⌋⌋ (no power
of two lies strictly between ⌊n/d⌋ and n/d), and for n/d < 1 it is
−⌈log₂ ⌈d/n⌉⌉. -/
def floorLog2Pos (n d : Nat) : Int :=
  if d ≤ n then (log2fuel (n / d) (n / d) : Int)
  else -(clog2fuel ((d + n - 1) / n) ((d + n - 1) / n) : Int)

/-- The 53-bit significand of n/d scaled into the binade [2^e, 2^(e+1)):
round n·2^(52−e) / d half-to-even (exactly one of the two exponent shifts
is nonzero). -/
def roundScaled (n d : Nat) (e : Int) : Nat :=
  roundHalfEvenNat (n * 2 ^ (52 - e).toNat) (d * 2 ^ (e - 52).toNat)

/-- A positive rational rounded to the nearest IEEE-754 binary64 value
(53 significant bits, round half to even; overflow and subnormals ignored —
they are out of range for every value a claim touches). -/
def roundDoublePos (q : ℚ) : ℚ :=
  (roundScaled q.num.toNat q.den (floorLog2Pos q.num.toNat q.den) : ℚ)
    * (2 : ℚ) ^ (floorLog2Pos q.num.toNat q.den - 52)

/-- A rational rounded to the nearest IEEE-754 binary64 value.  This models
the precision limit that the main store model idealises away: a rate string
acquires SQLite REAL affinity (stored as the nearest double), and Python's
float arithmetic rounds each operation's exact result once. -/
def roundDouble (q : ℚ) : ℚ :=
  if q = 0 then 0
  else if q < 0 then -roundDoublePos (-q) else roundDoublePos q

/-- The float-faithful model of `total = price * total_days` (app.py
line 209): `price` is already a binary64 value read from the REAL column,
the int day count converts exactly (it is tiny), and Python's `*` rounds
the exact product once to binary64. -/
def totalAsComputed (price : ℚ) (total_days : Int) : ℚ :=
  roundDouble (price * (total_days : ℚ))

/-- A row of the `clients` table (app.py lines 48-54). -/
structure Client where
  id : Nat
  name : String
  phone : String
deriving Repr, DecidableEq

/-- A row of the `rooms` table (app.py lines 57-65).  The SQL column `type`
is named `room_type` here (`type` is a Lean keyword); `price` is the REAL
nightly rate; `status` is `'Disponible'` (available) or `'Occupée'`
(occupied), defaulting to `'Disponible'`. -/
structure Room where
  id : Nat
  number : String
  room_type : String
  price : ℚ
  status : String
deriving Repr, DecidableEq

/-- A row of the `bookings` table (app.py lines 68-79): foreign keys to a
client and a room, the raw check-in/check-out strings, and the total
computed at creation time. -/
structure Booking where
  id : Nat
  client_id : Nat
  room_id : Nat
  checkin : String
  checkout : String
  total : ℚ
deriving Repr, DecidableEq

/-- The persistent store: the three tables the claims touch, plus the
`AUTOINCREMENT` counters.  (The `users` table and the default admin account
created by `init_db` are omitted: no operation modelled here reads them —
authentication is modelled by the session, below.) -/
structure Db where
  clients : List Client
  rooms : List Room
  bookings : List Booking
  next_client_id : Nat
  next_room_id : Nat
  next_booking_id : Nat
deriving Repr, DecidableEq

/-- `init_db` (app.py lines 33-89): all tables empty; `AUTOINCREMENT` ids
start at 1. -/
def init_db : Db :=
  { clients := [], rooms := [], bookings := []
    next_client_id := 1, next_room_id := 1, next_booking_id := 1 }

/-- An uncaught exception aborting a request before `conn.commit()`: the
SQLite transaction rolls back, so the store is unchanged and Flask returns
an error response. -/
inductive DbError where
  /-- `sqlite3.IntegrityError`: the `UNIQUE` constraint on `rooms.number`
  rejects the INSERT (app.py line 186). -/
  | integrityError
  /-- `TypeError` from `fetchone()[0]` when `SELECT price FROM rooms WHERE id=?`
  returns no row (app.py line 207). -/
  | unknownRoom
deriving Repr, DecidableEq

/-- POST body of `/clients` (app.py lines 166-170): unconditionally insert a
client row. -/
def clients_post (db : Db) (name phone : String) : Db :=
  { db with
    clients := db.clients ++ [{ id := db.next_client_id, name := name, phone := phone }]
    next_client_id := db.next_client_id + 1 }

/-- POST body of `/rooms` (app.py lines 182-188): insert a room row; the
`status` column takes its SQL default `'Disponible'`.  A duplicate `number`
violates the `UNIQUE` constraint and the request aborts uncommitted. -/
def rooms_post (db : Db) (number room_type : String) (price : ℚ) : Except DbError Db :=
  if db.rooms.any (fun r => r.number == number) then
    .error .integrityError
  else
    .ok { db with
          rooms := db.rooms ++
            [{ id := db.next_room_id, number := number, room_type := room_type
               price := price, status := "Disponible" }]
          next_room_id := db.next_room_id + 1 }

/-- The `SELECT * FROM rooms WHERE status='Disponible'` of the booking page
(app.py line 201): the rooms the booking form offers. -/
def availableRooms (db : Db) : List Room :=
  db.rooms.filter (fun r => r.status == "Disponible")

/-- POST body of `/bookings` (app.py lines 202-213): read the room's current
price (aborting if the room id matches no row), compute
`total = price * (checkout - checkin).days`, insert the booking row and set
the room's status to `'Occupée'`, then commit.  Note what the code does NOT
do: it never checks the room's current status, never validates the date
range, and never checks that `client_id` exists. -/
def bookings_post (db : Db) (client_id room_id : Nat) (checkin checkout : Date) :
    Except DbError Db :=
  match db.rooms.find? (fun r => r.id == room_id) with
  | none => .error .unknownRoom
  | some room =>
    let total_days : Int := dateDiffDays checkin checkout
    let total : ℚ := room.price * (total_days : ℚ)
    .ok { db with
          bookings := db.bookings ++
            [{ id := db.next_booking_id, client_id := client_id, room_id := room_id
               checkin := dateStr checkin, checkout := dateStr checkout, total := total }]
          next_booking_id := db.next_booking_id + 1
          rooms := db.rooms.map
            (fun r => if r.id == room_id then { r with status := "Occupée" } else r) }

/-- The SELECT-JOIN of `/invoice/<id>` (app.py lines 230-236): the booking
row inner-joined with its client row and its room row.  The join is empty —
and the route reports "Réservation introuvable" — not only when the booking
id matches no row but also when a foreign key dangles. -/
def invoiceJoin (db : Db) (booking_id : Nat) : Option (Booking × Client × Room) :=
  match db.bookings.find? (fun b => b.id == booking_id) with
  | none => none
  | some b =>
    match db.clients.find? (fun c => c.id == b.client_id),
          db.rooms.find? (fun r => r.id == b.room_id) with
    | some c, some r => some (b, c, r)
    | _, _ => none

/-- Body of `/invoice/<id>` (app.py lines 239-256): the paragraph texts of
the generated PDF, in order; `"Réservation introuvable"` when the join is
empty. -/
def invoice (db : Db) (booking_id : Nat) : Except String (List String) :=
  match invoiceJoin db booking_id with
  | none => .error "Réservation introuvable"
  | some (b, c, r) =>
    .ok ["FACTURE HÔTEL",
         "Client: " ++ c.name ++ " - " ++ c.phone,
         "Chambre: " ++ r.number ++ " - " ++ r.room_type,
         "Check-in: " ++ b.checkin,
         "Check-out: " ++ b.checkout,
         "Total: " ++ reprReal b.total ++ " €"]

/-- The Flask session, reduced to what `login_required` inspects:
`session['user_id']`. -/
structure Session where
  user_id : Option Nat
deriving Repr, DecidableEq

/-- One HTTP request against the core routes. -/
inductive Request where
  | dashboard
  | clientsGet
  | clientsPost (name phone : String)
  | roomsGet
  | roomsPost (number room_type : String) (price : ℚ)
  | bookingsGet
  | bookingsPost (client_id room_id : Nat) (checkin checkout : Date)
  | invoicePage (booking_id : Nat)
deriving DecidableEq

/-- The response of a route, abstracted. -/
inductive Response where
  /-- `redirect(url_for('login'))` from `login_required`. -/
  | redirectLogin
  /-- A rendered HTML page. -/
  | html
  /-- HTTP 500 from an uncaught exception; the transaction rolled back. -/
  | serverError (e : DbError)
  /-- The invoice PDF, as its paragraph texts. -/
  | pdf (paragraphs : List String)
  /-- A plain-text body (`"Réservation introuvable"`). -/
  | text (msg : String)
deriving DecidableEq

/-- Dispatch of an authenticated request to its route body. -/
def route (db : Db) : Request → Response × Db
  | .dashboard => (.html, db)
  | .clientsGet => (.html, db)
  | .clientsPost name phone => (.html, clients_post db name phone)
  | .roomsGet => (.html, db)
  | .roomsPost number room_type price =>
    match rooms_post db number room_type price with
    | .error e => (.serverError e, db)
    | .ok db' => (.html, db')
  | .bookingsGet => (.html, db)
  | .bookingsPost client_id room_id checkin checkout =>
    match bookings_post db client_id room_id checkin checkout with
    | .error e => (.serverError e, db)
    | .ok db' => (.html, db')
  | .invoicePage booking_id =>
    match invoice db booking_id with
    | .error msg => (.text msg, db)
    | .ok doc => (.pdf doc, db)

/-- One request against the application: the `login_required` decorator
(app.py lines 106-112) redirects to the login page — before any route body
runs — when the session carries no `user_id`. -/
def handle (sess : Session) (db : Db) (req : Request) : Response × Db :=
  if sess.user_id = none then (.redirectLogin, db) else route db req

/-- The store after serving a sequence of requests. -/
def run (sess : Session) (db : Db) (reqs : List Request) : Db :=
  reqs.foldl (fun d r => (handle sess d r).2) db

/-! ## Theorems -/

/-- C9: a request carrying no authenticated session is redirected to the
login page by `login_required` before any route body runs, so the store is
never mutated by an unauthenticated request. -/
theorem unauthenticated_request_redirects_and_leaves_store
    (sess : Session) (db : Db) (req : Request) (h : sess.user_id = none) :
    handle sess db req = (.redirectLogin, db) := by
  simp [handle, h]

/-- Witness for C9: a concrete unauthenticated dashboard request against the
fresh store is redirected and changes nothing. -/
theorem unauthenticated_request_redirects_witness :
    handle ⟨none⟩ init_db .dashboard = (.redirectLogin, init_db) :=
  unauthenticated_request_redirects_and_leaves_store ⟨none⟩ init_db .dashboard rfl

/-- C10: a room accepted by `addRoom` is appended with the SQL default
status `'Disponible'`, whatever rate and type were supplied, and hence is
offered by the booking page's available-rooms list. -/
theorem new_room_is_available
    (db : Db) (number room_type : String) (price : ℚ) (db' : Db)
    (h : rooms_post db number room_type price = Except.ok db') :
    ∃ room, db'.rooms = db.rooms ++ [room] ∧ room.number = number ∧
      room.room_type = room_type ∧ room.price = price ∧
      room.status = "Disponible" ∧ room ∈ availableRooms db' := by
  unfold rooms_post at h
  by_cases hdup : db.rooms.any (fun r => r.number == number)
  · rw [if_pos hdup] at h
    exact absurd h (by simp)
  · rw [if_neg hdup] at h
    cases h
    refine ⟨_, rfl, rfl, rfl, rfl, rfl, ?_⟩
    exact List.mem_filter.mpr ⟨List.mem_append_right _ (.head []), rfl⟩

/-- Witness for C10: adding room "101" to the fresh store yields a room that
the booking form offers. -/
theorem new_room_is_available_witness :
    ∃ db' room, rooms_post init_db "101" "Standard" 100 = Except.ok db' ∧
      db'.rooms = [] ++ [room] ∧ room.status = "Disponible" ∧
      room ∈ availableRooms db' := by
  obtain ⟨room, h1, _, _, _, h5, h6⟩ :=
    new_room_is_available init_db "101" "Standard" 100 _ rfl
  exact ⟨_, room, rfl, h1, h5, h6⟩

theorem log2fuel_lt (fuel m k : Nat) (hk : 0 < k) (hm : m < 2 ^ k) :
    log2fuel fuel m < k := by
  induction fuel generalizing m k with
  | zero => simpa [log2fuel] using hk
  | succ fuel ih =>
    unfold log2fuel
    by_cases h2 : 2 ≤ m
    · rw [if_pos h2]
      have hk2 : 2 ≤ k := by
        by_contra hlt
        have hk1 : k = 1 := by omega
        subst hk1
        norm_num at hm
        omega
      have hpow : (2 : Nat) ^ k = 2 ^ (k - 1) * 2 := by
        rw [← pow_succ]
        congr 1
        omega
      have hm2 : m / 2 < 2 ^ (k - 1) :=
        (Nat.div_lt_iff_lt_mul (by norm_num)).mpr (by omega)
      have := ih (m / 2) (k - 1) (by omega) hm2
      omega
    · rw [if_neg h2]
      exact hk

theorem roundHalfEvenNat_one (n : Nat) : roundHalfEvenNat n 1 = n := by
  simp [roundHalfEvenNat, Nat.mod_one, Nat.div_one]

/-- Binary64 rounding is the identity on integers below 2^53 (they are
exactly representable). -/
theorem roundDouble_natCast (n : Nat) (h53 : n < 2 ^ 53) :
    roundDouble (n : ℚ) = n := by
  rcases Nat.eq_zero_or_pos n with rfl | hpos
  · simp [roundDouble]
  · have hne : ((n : ℚ)) ≠ 0 := Nat.cast_ne_zero.mpr (by omega)
    have hnn : ¬((n : ℚ) < 0) := not_lt.mpr (by positivity)
    rw [roundDouble, if_neg hne, if_neg hnn]
    unfold roundDoublePos
    have hnum : ((n : ℚ)).num.toNat = n := by simp
    have hden : ((n : ℚ)).den = 1 := Rat.den_natCast n
    rw [hnum, hden]
    have he : floorLog2Pos n 1 = (log2fuel n n : Int) := by
      unfold floorLog2Pos
      rw [if_pos (by omega : 1 ≤ n)]
      rw [Nat.div_one]
    rw [he]
    have hL52 : log2fuel n n ≤ 52 := by
      have := log2fuel_lt n n 53 (by norm_num) h53
      omega
    have hscaled : roundScaled n 1 ((log2fuel n n : Nat) : Int) =
        n * 2 ^ (52 - log2fuel n n) := by
      unfold roundScaled
      have h1 : (((log2fuel n n : Nat) : Int) - 52).toNat = 0 := by omega
      have h2 : ((52 : Int) - ((log2fuel n n : Nat) : Int)).toNat = 52 - log2fuel n n := by
        omega
      rw [h1, h2, pow_zero, mul_one, roundHalfEvenNat_one]
    rw [hscaled]
    push_cast
    rw [show ((2 : ℚ) ^ (52 - log2fuel n n : Nat)) =
        (2 : ℚ) ^ (((52 - log2fuel n n : Nat) : ℤ)) from (zpow_natCast 2 _).symm]
    rw [mul_assoc, ← zpow_add₀ (by norm_num : (2 : ℚ) ≠ 0)]
    rw [show (((52 - log2fuel n n : Nat) : ℤ) +
        (((log2fuel n n : Nat) : Int) - 52)) = 0 by omega]
    simp

/-- Counterexample to C3 as stated: the program computes the total in IEEE
binary64, not exactly.  The rate text "0.1" acquires SQLite REAL affinity
and is stored as the nearest double 3602879701896397/2^55; booked for
3 nights (2026-01-10 → 2026-01-13), the double product rounds to
5404319552844596/2^54 = 0.30000000000000004…, which differs both from the
exact product rate-as-read × 3 and from 0.3 — so the stored total does not
equal the rate as read at booking time times the whole-day difference
exactly. -/
theorem total_not_exact_for_fractional_rate :
    dateDiffDays ⟨2026, 1, 10⟩ ⟨2026, 1, 13⟩ = 3 ∧
    roundDouble (1 / 10) = 3602879701896397 / 2 ^ 55 ∧
    totalAsComputed (3602879701896397 / 2 ^ 55) 3 = 5404319552844596 / 2 ^ 54 ∧
    totalAsComputed (3602879701896397 / 2 ^ 55) 3 ≠ (3602879701896397 / 2 ^ 55) * 3 ∧
    totalAsComputed (3602879701896397 / 2 ^ 55) 3 ≠ 3 / 10 := by
  have hb : roundDouble (1 / 10) = 3602879701896397 / 2 ^ 55 := by
    rw [roundDouble, if_neg (by norm_num), if_neg (by norm_num)]
    unfold roundDoublePos
    have hnum : ((1 : ℚ) / 10).num.toNat = 1 := by norm_num
    have hden : ((1 : ℚ) / 10).den = 10 := by norm_num
    rw [hnum, hden]
    rw [show floorLog2Pos 1 10 = -4 from by decide]
    rw [show roundScaled 1 10 (-4) = 7205759403792794 from by decide]
    norm_num
  have hc : totalAsComputed (3602879701896397 / 2 ^ 55) 3 =
      5404319552844596 / 2 ^ 54 := by
    unfold totalAsComputed
    rw [show ((3602879701896397 / 2 ^ 55 : ℚ) * ((3 : Int) : ℚ)) =
        10808639105689191 / 36028797018963968 by push_cast; norm_num]
    rw [roundDouble, if_neg (by norm_num), if_neg (by norm_num)]
    unfold roundDoublePos
    have hnum : ((10808639105689191 : ℚ) / 36028797018963968).num.toNat =
        10808639105689191 := by
      rw [show ((10808639105689191 : ℚ) / 36028797018963968).num =
          10808639105689191 from by norm_num]
      rfl
    have hden : ((10808639105689191 : ℚ) / 36028797018963968).den =
        36028797018963968 := by norm_num
    rw [hnum, hden]
    rw [show floorLog2Pos 10808639105689191 36028797018963968 = -2 from by decide]
    rw [show roundScaled 10808639105689191 36028797018963968 (-2) =
        5404319552844596 from by decide]
    norm_num
  refine ⟨by decide, hb, hc, ?_, ?_⟩
  · rw [hc]
    norm_num
  · rw [hc]
    norm_num

/-- C3 (amended): the stored total is the IEEE-754 binary64 product of the
rate as read at booking time and the whole-day difference — the exact
product rounded once to 53 significant bits.  Whenever that product is an
integer below 2^53 (every integral-rate scenario in the spec) the rounding
is the identity, so the stored total equals rate × nights exactly and
agrees with the ℚ-modelled store; for fractional rates exactness can fail
(see the counterexample). -/
theorem booking_total_is_double_rounded_product
    (db : Db) (client_id room_id : Nat) (checkin checkout : Date)
    (room : Room) (db' : Db) (n : Nat)
    (hroom : db.rooms.find? (fun r => r.id == room_id) = some room)
    (hok : bookings_post db client_id room_id checkin checkout = Except.ok db')
    (hn : room.price * (dateDiffDays checkin checkout : ℚ) = (n : ℚ))
    (h53 : n < 2 ^ 53) :
    ∃ b, db'.bookings = db.bookings ++ [b] ∧
      b.total = room.price * (dateDiffDays checkin checkout : ℚ) ∧
      totalAsComputed room.price (dateDiffDays checkin checkout) = b.total := by
  unfold bookings_post at hok
  rw [hroom] at hok
  cases hok
  refine ⟨_, rfl, rfl, ?_⟩
  show totalAsComputed room.price (dateDiffDays checkin checkout) =
    room.price * ((dateDiffDays checkin checkout : Int) : ℚ)
  unfold totalAsComputed
  rw [hn, roundDouble_natCast n h53]

/-- Witness for the amended C3: booking room "101" (integral rate 100) for
2026-01-10 → 2026-01-12 stores total 100 × 2, and the float-faithful
computation agrees exactly. -/
theorem booking_total_is_double_rounded_product_witness :
    ∃ db' b,
      bookings_post (⟨[], [⟨1, "101", "Standard", 100, "Disponible"⟩], [], 1, 2, 1⟩ : Db)
        1 1 ⟨2026, 1, 10⟩ ⟨2026, 1, 12⟩ = Except.ok db' ∧
      db'.bookings = [] ++ [b] ∧
      b.total = (100 : ℚ) * (dateDiffDays ⟨2026, 1, 10⟩ ⟨2026, 1, 12⟩ : ℚ) ∧
      totalAsComputed (100 : ℚ) (dateDiffDays ⟨2026, 1, 10⟩ ⟨2026, 1, 12⟩) = b.total := by
  have hd : dateDiffDays ⟨2026, 1, 10⟩ ⟨2026, 1, 12⟩ = 2 := by decide
  obtain ⟨b, h1, h2, h3⟩ := booking_total_is_double_rounded_product
    (⟨[], [⟨1, "101", "Standard", 100, "Disponible"⟩], [], 1, 2, 1⟩ : Db)
    1 1 ⟨2026, 1, 10⟩ ⟨2026, 1, 12⟩ ⟨1, "101", "Standard", 100, "Disponible"⟩ _ 200
    rfl rfl (by rw [hd]; push_cast; norm_num) (by norm_num)
  exact ⟨_, b, rfl, h1, h2, h3⟩

/-- C4: the `/bookings` POST either fails before `conn.commit()` — leaving
the store exactly as it was — or commits both effects together: the booking
row is appended and the room's status is flipped to `'Occupée'`. -/
theorem createBooking_atomic
    (db : Db) (client_id room_id : Nat) (checkin checkout : Date) :
    (∃ e, route db (.bookingsPost client_id room_id checkin checkout) =
        (.serverError e, db)) ∨
    (∃ db' b, route db (.bookingsPost client_id room_id checkin checkout) =
        (.html, db') ∧
      db'.bookings = db.bookings ++ [b] ∧ b.room_id = room_id ∧
      db'.clients = db.clients ∧
      (∃ r ∈ db'.rooms, r.id = room_id ∧ r.status = "Occupée") ∧
      (∀ r ∈ db'.rooms, r.id = room_id → r.status = "Occupée")) := by
  cases hfind : db.rooms.find? (fun r => r.id == room_id) with
  | none =>
    left
    exact ⟨.unknownRoom, by simp [route, bookings_post, hfind]⟩
  | some room =>
    right
    refine ⟨{ db with
              bookings := db.bookings ++
                [{ id := db.next_booking_id, client_id := client_id, room_id := room_id
                   checkin := dateStr checkin, checkout := dateStr checkout
                   total := room.price * (dateDiffDays checkin checkout : ℚ) }]
              next_booking_id := db.next_booking_id + 1
              rooms := db.rooms.map
                (fun r => if r.id == room_id then { r with status := "Occupée" } else r) },
            _, by simp [route, bookings_post, hfind], rfl, rfl, rfl, ?_, ?_⟩
    · have hmem := List.mem_of_find?_eq_some hfind
      have hid : room.id = room_id := by
        have := List.find?_some hfind
        exact beq_iff_eq.mp this
      refine ⟨{ room with status := "Occupée" }, ?_, hid, rfl⟩
      refine List.mem_map.mpr ⟨room, hmem, ?_⟩
      rw [if_pos (beq_iff_eq.mpr hid)]
    · intro r hr
      rcases List.mem_map.mp hr with ⟨r0, _, rfl⟩
      by_cases h0 : r0.id == room_id
      · intro _
        rw [if_pos h0]
      · intro hid
        rw [if_neg h0] at hid ⊢
        exact absurd (beq_iff_eq.mpr hid) h0

/-- C8: `addRoom` with a number already present aborts on the UNIQUE
constraint, leaving the store unchanged; with a fresh number it appends
exactly one room row. `addClient` unconditionally appends exactly one
client row and touches nothing else. -/
theorem addRoom_addClient_spec
    (db : Db) (number room_type : String) (price : ℚ) (name phone : String) :
    ((∃ r ∈ db.rooms, r.number = number) →
      route db (.roomsPost number room_type price) =
        (.serverError .integrityError, db)) ∧
    ((∀ r ∈ db.rooms, r.number ≠ number) →
      ∃ room, rooms_post db number room_type price =
          Except.ok { db with rooms := db.rooms ++ [room]
                              next_room_id := db.next_room_id + 1 } ∧
        room.number = number ∧ room.room_type = room_type ∧ room.price = price) ∧
    (clients_post db name phone).clients = db.clients ++
      [{ id := db.next_client_id, name := name, phone := phone }] ∧
    (clients_post db name phone).rooms = db.rooms ∧
    (clients_post db name phone).bookings = db.bookings := by
  refine ⟨?_, ?_, rfl, rfl, rfl⟩
  · rintro ⟨r, hr, hnum⟩
    have hdup : db.rooms.any (fun r => r.number == number) = true :=
      List.any_eq_true.mpr ⟨r, hr, beq_iff_eq.mpr hnum⟩
    simp [route, rooms_post, hdup]
  · intro h
    have hdup : db.rooms.any (fun r => r.number == number) = false := by
      rw [List.any_eq_false]
      intro r hr
      simpa using h r hr
    refine ⟨{ id := db.next_room_id, number := number, room_type := room_type
              price := price, status := "Disponible" }, ?_, rfl, rfl, rfl⟩
    unfold rooms_post
    rw [hdup]
    simp

/-- Witness for C8: adding "101" over a store already holding room "101"
errors and leaves the store unchanged; adding "101" to the fresh store
appends it; adding a client appends it. -/
theorem addRoom_addClient_spec_witness :
    route (⟨[], [⟨1, "101", "Standard", 100, "Disponible"⟩], [], 1, 2, 1⟩ : Db)
        (.roomsPost "101" "Deluxe" 150) =
      (.serverError .integrityError,
        (⟨[], [⟨1, "101", "Standard", 100, "Disponible"⟩], [], 1, 2, 1⟩ : Db)) ∧
    (∃ room, rooms_post init_db "101" "Standard" 100 =
        Except.ok { init_db with rooms := init_db.rooms ++ [room]
                                 next_room_id := init_db.next_room_id + 1 } ∧
      room.number = "101" ∧ room.room_type = "Standard" ∧ room.price = 100) ∧
    (clients_post init_db "Jane Doe" "555-1234").clients = init_db.clients ++
      [{ id := 1, name := "Jane Doe", phone := "555-1234" }] := by
  refine ⟨?_, ?_, ?_⟩
  · exact (addRoom_addClient_spec _ "101" "Deluxe" 150 "x" "y").1
      ⟨⟨1, "101", "Standard", 100, "Disponible"⟩, .head [], rfl⟩
  · exact (addRoom_addClient_spec init_db "101" "Standard" 100 "x" "y").2.1
      (fun r hr => absurd hr (List.not_mem_nil r))
  · exact (addRoom_addClient_spec init_db "101" "Standard" 100 "Jane Doe" "555-1234").2.2.1

/-- C1 (bug evidence): the `/bookings` POST body never reads the room's
status, so a second booking for room "101" — Occupée after the first —
is accepted and inserted: afterwards two booking rows reference the room.
(The booking form only *offers* available rooms, app.py line 201, but the
POST handler enforces nothing.) -/
theorem second_booking_accepted_for_occupied_room :
    ∃ db1 db2 db3,
      rooms_post init_db "101" "Standard" 100 = Except.ok db1 ∧
      bookings_post db1 1 1 ⟨2026, 1, 10⟩ ⟨2026, 1, 12⟩ = Except.ok db2 ∧
      (∃ r ∈ db2.rooms, r.number = "101" ∧ r.status = "Occupée") ∧
      bookings_post db2 1 1 ⟨2026, 1, 12⟩ ⟨2026, 1, 14⟩ = Except.ok db3 ∧
      db3.bookings.length = 2 ∧
      (db3.bookings.filter (fun b => b.room_id == 1)).length = 2 := by
  refine ⟨_, _, _, rfl, rfl, ⟨⟨1, "101", "Standard", 100, "Occupée"⟩, .head [], rfl, rfl⟩,
    rfl, rfl, rfl⟩

/-- Counterexample to C2 as stated: `createBooking` with
checkout = checkin = 2026-01-10 does NOT fail — the booking row is
inserted, with total `100 × 0 = 0`. -/
theorem createBooking_accepts_equal_dates :
    ∃ db1 db2,
      rooms_post init_db "101" "Standard" 100 = Except.ok db1 ∧
      bookings_post db1 1 1 ⟨2026, 1, 10⟩ ⟨2026, 1, 10⟩ = Except.ok db2 ∧
      db2.bookings.length = 1 ∧
      ∃ b ∈ db2.bookings, b.checkin = "2026-01-10" ∧ b.checkout = "2026-01-10" ∧
        b.total = 0 := by
  refine ⟨_, _, rfl, rfl, rfl, _, .head [], rfl, rfl, ?_⟩
  show (100 : ℚ) * ((dateDiffDays ⟨2026, 1, 10⟩ ⟨2026, 1, 10⟩ : Int) : ℚ) = 0
  have h : dateDiffDays ⟨2026, 1, 10⟩ ⟨2026, 1, 10⟩ = 0 := by decide
  rw [h]
  norm_num

/-- C2 (amended): `createBooking` performs no date-range validation at all:
whenever the room row exists it succeeds for every date pair, including
checkout ≤ checkin, inserting a booking whose total is
rate × (checkout − checkin) — zero or negative when checkout ≤ checkin and
the rate is nonnegative. -/
theorem createBooking_no_date_validation
    (db : Db) (client_id room_id : Nat) (checkin checkout : Date) (room : Room)
    (hroom : db.rooms.find? (fun r => r.id == room_id) = some room)
    (hd : dateDiffDays checkin checkout ≤ 0) (hp : 0 ≤ room.price) :
    ∃ db' b, bookings_post db client_id room_id checkin checkout = Except.ok db' ∧
      db'.bookings = db.bookings ++ [b] ∧
      b.total = room.price * (dateDiffDays checkin checkout : ℚ) ∧
      b.total ≤ 0 := by
  unfold bookings_post
  rw [hroom]
  refine ⟨_, _, rfl, rfl, rfl, ?_⟩
  have hc : ((dateDiffDays checkin checkout : Int) : ℚ) ≤ 0 := by exact_mod_cast hd
  exact mul_nonpos_iff.mpr (Or.inl ⟨hp, hc⟩)

/-- Witness for the amended C2: a same-day booking of room "101" at rate 100
is accepted with total ≤ 0. -/
theorem createBooking_no_date_validation_witness :
    ∃ db' b,
      bookings_post (⟨[], [⟨1, "101", "Standard", 100, "Disponible"⟩], [], 1, 2, 1⟩ : Db)
        1 1 ⟨2026, 1, 10⟩ ⟨2026, 1, 10⟩ = Except.ok db' ∧
      db'.bookings = [] ++ [b] ∧
      b.total = (100 : ℚ) * (dateDiffDays ⟨2026, 1, 10⟩ ⟨2026, 1, 10⟩ : ℚ) ∧
      b.total ≤ 0 := by
  exact createBooking_no_date_validation
    (⟨[], [⟨1, "101", "Standard", 100, "Disponible"⟩], [], 1, 2, 1⟩ : Db)
    1 1 ⟨2026, 1, 10⟩ ⟨2026, 1, 10⟩ ⟨1, "101", "Standard", 100, "Disponible"⟩
    rfl (by decide) (by norm_num)

/-- Counterexample to C6 as stated: a booking whose `client_id` references
no client row (createBooking never validates it) exists in the store, yet
`/invoice/1` answers "Réservation introuvable" — the inner join is empty —
instead of producing a document. -/
theorem invoice_not_found_despite_existing_booking :
    ∃ db1 db2,
      rooms_post init_db "101" "Standard" 100 = Except.ok db1 ∧
      bookings_post db1 7 1 ⟨2026, 1, 10⟩ ⟨2026, 1, 12⟩ = Except.ok db2 ∧
      (∃ b ∈ db2.bookings, b.id = 1) ∧
      invoice db2 1 = Except.error "Réservation introuvable" := by
  exact ⟨_, _, rfl, rfl, ⟨_, .head [], rfl⟩, rfl⟩

/-- C6 (amended): `renderInvoice` answers "Réservation introuvable" when no
booking row matches the id — and likewise when the booking's client or room
foreign key dangles, since the SELECT is an inner join; when booking, client
and room rows are all found it deterministically produces the document with
title, client name and phone, room number and category, check-in, check-out,
and the total with the euro currency unit. -/
theorem renderInvoice_spec (db : Db) (booking_id : Nat) :
    (db.bookings.find? (fun x => x.id == booking_id) = none →
      invoice db booking_id = Except.error "Réservation introuvable") ∧
    ∀ b, db.bookings.find? (fun x => x.id == booking_id) = some b →
      ((db.clients.find? (fun x => x.id == b.client_id) = none →
          invoice db booking_id = Except.error "Réservation introuvable") ∧
        ∀ c r, db.clients.find? (fun x => x.id == b.client_id) = some c →
          db.rooms.find? (fun x => x.id == b.room_id) = some r →
          invoice db booking_id = Except.ok
            ["FACTURE HÔTEL",
             "Client: " ++ c.name ++ " - " ++ c.phone,
             "Chambre: " ++ r.number ++ " - " ++ r.room_type,
             "Check-in: " ++ b.checkin,
             "Check-out: " ++ b.checkout,
             "Total: " ++ reprReal b.total ++ " €"]) := by
  constructor
  · intro h
    simp [invoice, invoiceJoin, h]
  · intro b hb
    constructor
    · intro hc
      simp [invoice, invoiceJoin, hb, hc]
    · intro c r hc hr
      simp [invoice, invoiceJoin, hb, hc, hr]

/-- Witness for the amended C6: on a store holding client "Jane Doe", room
"101" and a booking for both, `/invoice/1` produces the document. -/
theorem renderInvoice_spec_witness :
    ∃ doc,
      invoice (run ⟨some 1⟩ init_db
        [.clientsPost "Jane Doe" "555-1234",
         .roomsPost "101" "Standard" 100,
         .bookingsPost 1 1 ⟨2026, 1, 10⟩ ⟨2026, 1, 12⟩]) 1 = Except.ok doc ∧
      "FACTURE HÔTEL" ∈ doc ∧
      ("Client: " ++ "Jane Doe" ++ " - " ++ "555-1234") ∈ doc ∧
      ("Check-in: " ++ "2026-01-10") ∈ doc := by
  have h := ((renderInvoice_spec (run ⟨some 1⟩ init_db
      [.clientsPost "Jane Doe" "555-1234",
       .roomsPost "101" "Standard" 100,
       .bookingsPost 1 1 ⟨2026, 1, 10⟩ ⟨2026, 1, 12⟩]) 1).2 _ rfl).2 _ _ rfl rfl
  exact ⟨_, h, .head _, .tail _ (.head _), .tail _ (.tail _ (.tail _ (.head _)))⟩

/-- Counterexample to C7 as stated: in the exact scenario of the claim the
stored total is the number 200, but the invoice renders it as "200.0"
(the rate string "100" acquires SQLite REAL affinity, so Python computes
and prints the float 200.0): the document carries the line
"Total: 200.0 €" and no line renders the total as the bare string "200". -/
theorem invoice_renders_total_as_200_point_0 :
    ∃ db1 db2 db3,
      clients_post init_db "Jane Doe" "555-1234" = db1 ∧
      rooms_post db1 "101" "Standard" 100 = Except.ok db2 ∧
      bookings_post db2 1 1 ⟨2026, 1, 10⟩ ⟨2026, 1, 12⟩ = Except.ok db3 ∧
      ∃ doc, invoice db3 1 = Except.ok doc ∧
        "Total: 200.0 €" ∈ doc ∧
        "Total: 200 €" ∉ doc ∧
        reprReal 200 ≠ "200" := by
  refine ⟨_, _, _, rfl, rfl, rfl, _, rfl, ?_, ?_, by decide⟩
  · show "Total: 200.0 €" ∈
      ["FACTURE HÔTEL",
       "Client: " ++ "Jane Doe" ++ " - " ++ "555-1234",
       "Chambre: " ++ "101" ++ " - " ++ "Standard",
       "Check-in: " ++ dateStr ⟨2026, 1, 10⟩,
       "Check-out: " ++ dateStr ⟨2026, 1, 12⟩,
       "Total: " ++
         reprReal ((100 : ℚ) * ((dateDiffDays ⟨2026, 1, 10⟩ ⟨2026, 1, 12⟩ : Int) : ℚ))
         ++ " €"]
    rw [show ((100 : ℚ) * ((dateDiffDays ⟨2026, 1, 10⟩ ⟨2026, 1, 12⟩ : Int) : ℚ)) = 200 by
      rw [show dateDiffDays ⟨2026, 1, 10⟩ ⟨2026, 1, 12⟩ = 2 from by decide]
      norm_num]
    rw [show reprReal 200 = "200.0" from by decide]
    decide
  · show "Total: 200 €" ∉
      ["FACTURE HÔTEL",
       "Client: " ++ "Jane Doe" ++ " - " ++ "555-1234",
       "Chambre: " ++ "101" ++ " - " ++ "Standard",
       "Check-in: " ++ dateStr ⟨2026, 1, 10⟩,
       "Check-out: " ++ dateStr ⟨2026, 1, 12⟩,
       "Total: " ++
         reprReal ((100 : ℚ) * ((dateDiffDays ⟨2026, 1, 10⟩ ⟨2026, 1, 12⟩ : Int) : ℚ))
         ++ " €"]
    rw [show ((100 : ℚ) * ((dateDiffDays ⟨2026, 1, 10⟩ ⟨2026, 1, 12⟩ : Int) : ℚ)) = 200 by
      rw [show dateDiffDays ⟨2026, 1, 10⟩ ⟨2026, 1, 12⟩ = 2 from by decide]
      norm_num]
    rw [show reprReal 200 = "200.0" from by decide]
    decide

/-- C7 (amended): in the claim's scenario the computed total is exactly the
number 200, and the invoice document carries all six fields verbatim, with
the total rendered as "200.0" followed by the euro sign — "200" thus appears
only as a prefix of "200.0", not as the total's full rendering. -/
theorem invoice_concrete_scenario :
    ∃ db1 db2 db3,
      clients_post init_db "Jane Doe" "555-1234" = db1 ∧
      rooms_post db1 "101" "Standard" 100 = Except.ok db2 ∧
      bookings_post db2 1 1 ⟨2026, 1, 10⟩ ⟨2026, 1, 12⟩ = Except.ok db3 ∧
      (∃ b ∈ db3.bookings, b.total = 200) ∧
      ∃ doc, invoice db3 1 = Except.ok doc ∧
        doc = ["FACTURE HÔTEL",
               "Client: Jane Doe - 555-1234",
               "Chambre: 101 - Standard",
               "Check-in: 2026-01-10",
               "Check-out: 2026-01-12",
               "Total: 200.0 €"] := by
  refine ⟨_, _, _, rfl, rfl, rfl, ⟨_, .head [], ?_⟩, _, rfl, ?_⟩
  · show ((100 : ℚ) * ((dateDiffDays ⟨2026, 1, 10⟩ ⟨2026, 1, 12⟩ : Int) : ℚ)) = 200
    rw [show dateDiffDays ⟨2026, 1, 10⟩ ⟨2026, 1, 12⟩ = 2 from by decide]
    norm_num
  · show ["FACTURE HÔTEL",
       "Client: " ++ "Jane Doe" ++ " - " ++ "555-1234",
       "Chambre: " ++ "101" ++ " - " ++ "Standard",
       "Check-in: " ++ dateStr ⟨2026, 1, 10⟩,
       "Check-out: " ++ dateStr ⟨2026, 1, 12⟩,
       "Total: " ++
         reprReal ((100 : ℚ) * ((dateDiffDays ⟨2026, 1, 10⟩ ⟨2026, 1, 12⟩ : Int) : ℚ))
         ++ " €"] =
      ["FACTURE HÔTEL",
       "Client: Jane Doe - 555-1234",
       "Chambre: 101 - Standard",
       "Check-in: 2026-01-10",
       "Check-out: 2026-01-12",
       "Total: 200.0 €"]
    rw [show ((100 : ℚ) * ((dateDiffDays ⟨2026, 1, 10⟩ ⟨2026, 1, 12⟩ : Int) : ℚ)) = 200 by
      rw [show dateDiffDays ⟨2026, 1, 10⟩ ⟨2026, 1, 12⟩ = 2 from by decide]
      norm_num]
    rw [show reprReal 200 = "200.0" from by decide]
    decide

/-- The store invariant behind C5: room ids stay below the id counter,
every booking references an existing room, and a room is `'Occupée'` exactly
when some booking references it. -/
def Inv (db : Db) : Prop :=
  (∀ r ∈ db.rooms, r.id < db.next_room_id) ∧
  (∀ b ∈ db.bookings, ∃ r ∈ db.rooms, r.id = b.room_id) ∧
  (∀ r ∈ db.rooms, (r.status = "Occupée" ↔ ∃ b ∈ db.bookings, b.room_id = r.id))

theorem inv_init : Inv init_db := by
  refine ⟨?_, ?_, ?_⟩ <;> intro x hx <;> exact absurd hx (List.not_mem_nil x)

theorem inv_clients_post (db : Db) (name phone : String) (h : Inv db) :
    Inv (clients_post db name phone) := h

theorem inv_rooms_post (db : Db) (number room_type : String) (price : ℚ) (db' : Db)
    (h : Inv db) (hok : rooms_post db number room_type price = Except.ok db') :
    Inv db' := by
  obtain ⟨h1, h2, h3⟩ := h
  unfold rooms_post at hok
  by_cases hdup : db.rooms.any (fun r => r.number == number)
  · rw [if_pos hdup] at hok
    exact absurd hok (by simp)
  · rw [if_neg hdup] at hok
    cases hok
    refine ⟨?_, ?_, ?_⟩
    · intro r hr
      rcases List.mem_append.mp hr with hr | hr
      · exact Nat.lt_succ_of_lt (h1 r hr)
      · rw [List.mem_singleton.mp hr]
        exact Nat.lt_succ_self _
    · intro b hb
      obtain ⟨r, hr, hid⟩ := h2 b hb
      exact ⟨r, List.mem_append_left _ hr, hid⟩
    · intro r hr
      rcases List.mem_append.mp hr with hr | hr
      · exact h3 r hr
      · rw [List.mem_singleton.mp hr]
        constructor
        · intro hst
          have hne : ("Disponible" : String) ≠ "Occupée" := by decide
          exact absurd hst hne
        · rintro ⟨b, hb, hbid⟩
          obtain ⟨r0, hr0, hid0⟩ := h2 b hb
          have := h1 r0 hr0
          rw [hid0, hbid] at this
          exact absurd this (Nat.lt_irrefl _)

theorem inv_bookings_post (db : Db) (client_id room_id : Nat)
    (checkin checkout : Date) (db' : Db)
    (h : Inv db) (hok : bookings_post db client_id room_id checkin checkout = Except.ok db') :
    Inv db' := by
  obtain ⟨h1, h2, h3⟩ := h
  unfold bookings_post at hok
  cases hfind : db.rooms.find? (fun r => r.id == room_id) with
  | none =>
    rw [hfind] at hok
    exact absurd hok (by simp)
  | some room =>
    rw [hfind] at hok
    cases hok
    have hroomid : room.id = room_id := by
      have hp := List.find?_some hfind
      exact beq_iff_eq.mp hp
    have hroommem : room ∈ db.rooms := List.mem_of_find?_eq_some hfind
    refine ⟨?_, ?_, ?_⟩
    · intro r hr
      rcases List.mem_map.mp hr with ⟨r0, hr0, rfl⟩
      have hlt := h1 r0 hr0
      by_cases h0 : r0.id == room_id
      · rw [if_pos h0]
        exact hlt
      · rw [if_neg h0]
        exact hlt
    · intro b hb
      rcases List.mem_append.mp hb with hb | hb
      · obtain ⟨r0, hr0, hid0⟩ := h2 b hb
        refine ⟨if r0.id == room_id then { r0 with status := "Occupée" } else r0,
          List.mem_map.mpr ⟨r0, hr0, rfl⟩, ?_⟩
        by_cases h0 : r0.id == room_id
        · rw [if_pos h0]
          exact hid0
        · rw [if_neg h0]
          exact hid0
      · rw [List.mem_singleton.mp hb]
        refine ⟨{ room with status := "Occupée" },
          List.mem_map.mpr ⟨room, hroommem, ?_⟩, ?_⟩
        · rw [if_pos (beq_iff_eq.mpr hroomid)]
        · exact hroomid
    · intro r hr
      rcases List.mem_map.mp hr with ⟨r0, hr0, rfl⟩
      by_cases h0 : r0.id == room_id
      · rw [if_pos h0]
        constructor
        · intro _
          exact ⟨_, List.mem_append_right _ (.head []), (beq_iff_eq.mp h0).symm⟩
        · intro _
          rfl
      · rw [if_neg h0]
        have hne : r0.id ≠ room_id := fun he => h0 (beq_iff_eq.mpr he)
        constructor
        · intro hst
          obtain ⟨b, hb, hbid⟩ := (h3 r0 hr0).mp hst
          exact ⟨b, List.mem_append_left _ hb, hbid⟩
        · rintro ⟨b, hb, hbid⟩
          rcases List.mem_append.mp hb with hb | hb
          · exact (h3 r0 hr0).mpr ⟨b, hb, hbid⟩
          · rw [List.mem_singleton.mp hb] at hbid
            exact absurd hbid.symm hne

theorem inv_handle (sess : Session) (db : Db) (req : Request) (h : Inv db) :
    Inv (handle sess db req).2 := by
  unfold handle
  by_cases hs : sess.user_id = none
  · rw [if_pos hs]
    exact h
  · rw [if_neg hs]
    cases req with
    | dashboard => exact h
    | clientsGet => exact h
    | clientsPost name phone => exact inv_clients_post db name phone h
    | roomsGet => exact h
    | roomsPost number room_type price =>
      show Inv (match rooms_post db number room_type price with
        | .error e => ((.serverError e : Response), db)
        | .ok db' => (.html, db')).2
      cases hok : rooms_post db number room_type price with
      | error e => exact h
      | ok db' => exact inv_rooms_post db number room_type price db' h hok
    | bookingsGet => exact h
    | bookingsPost client_id room_id checkin checkout =>
      show Inv (match bookings_post db client_id room_id checkin checkout with
        | .error e => ((.serverError e : Response), db)
        | .ok db' => (.html, db')).2
      cases hok : bookings_post db client_id room_id checkin checkout with
      | error e => exact h
      | ok db' => exact inv_bookings_post db client_id room_id checkin checkout db' h hok
    | invoicePage booking_id =>
      show Inv (match invoice db booking_id with
        | .error msg => ((.text msg : Response), db)
        | .ok doc => (.pdf doc, db)).2
      cases invoice db booking_id with
      | error msg => exact h
      | ok doc => exact h

theorem inv_run (sess : Session) (reqs : List Request) (db : Db) (h : Inv db) :
    Inv (run sess db reqs) := by
  induction reqs generalizing db with
  | nil => exact h
  | cons req rest ih => exact ih (handle sess db req).2 (inv_handle sess db req h)

/-- C5: in every store reachable from the fresh store through the exposed
requests, a room is `'Occupée'` exactly when at least one booking row
references it. -/
theorem occupied_iff_referenced_by_booking (sess : Session) (reqs : List Request) :
    ∀ r ∈ (run sess init_db reqs).rooms,
      (r.status = "Occupée" ↔
        ∃ b ∈ (run sess init_db reqs).bookings, b.room_id = r.id) :=
  (inv_run sess reqs init_db inv_init).2.2

/-- Witness for C5: after adding room "101" and booking it, the room is
Occupée, so the invariant yields a booking referencing it. -/
theorem occupied_iff_referenced_by_booking_witness :
    ∃ b ∈ (run ⟨some 1⟩ init_db
        [.roomsPost "101" "Standard" 100,
         .bookingsPost 1 1 ⟨2026, 1, 10⟩ ⟨2026, 1, 12⟩]).bookings,
      b.room_id = 1 := by
  have h := occupied_iff_referenced_by_booking ⟨some 1⟩
    [.roomsPost "101" "Standard" 100,
     .bookingsPost 1 1 ⟨2026, 1, 10⟩ ⟨2026, 1, 12⟩]
    ⟨1, "101", "Standard", 100, "Occupée"⟩ (.head [])
  exact h.mp rfl

end HotelDesk
